import Mathlib

/-!
Shallow embedding of `scripts/review_pr.py` (GenOps Guardian).

The script is a single sequential pipeline: collect repository or PR
context (filesystem walk + git subprocess calls), build a prompt, call a
remote model, normalise the model's raw text output into a structured
risk record (JSON parse with a fixed fallback), write the record and a
Markdown summary, and optionally post a PR comment.

Effectful inputs (filesystem contents, git command results, environment
variables, the remote model call, the hosting API) are modelled as
explicit parameters: file reads and subprocess calls become `Except`
values carrying either the produced text or the exception message, and
`os.getenv` results become `Option String`.  Python's `json.loads` is
modelled by an executable recursive-descent JSON parser over the
character list of the input, and Python exceptions in the summary
rendering become `Option`.
-/

namespace GenOps

/-- JSON values as produced by Python's `json.loads`: null, booleans,
numbers (decimal mantissa/exponent form, covering ints and floats at the
level of their lexemes), the non-standard `NaN`/`Infinity`/`-Infinity`
floats that Python's parser accepts by default, strings, arrays and
objects (ordered key/value lists, later duplicate keys overriding in
place as in a Python dict). -/
inductive Json where
  | null : Json
  | bool (b : Bool) : Json
  | num (mantissa : Int) (exp10 : Int) : Json
  | nan : Json
  | inf : Json
  | neginf : Json
  | str (s : String) : Json
  | arr (elems : List Json) : Json
  | obj (fields : List (String × Json)) : Json

/-- Characters that JSON itself treats as insignificant whitespace
between tokens. -/
def isJsonWs (c : Char) : Bool :=
  c = ' ' || c = '\t' || c = '\n' || c = '\r'

/-- Drop leading JSON whitespace. -/
def skipWs : List Char → List Char
  | [] => []
  | c :: cs => if isJsonWs c then skipWs cs else c :: cs

/-- Characters stripped by Python's `str.strip()` (ASCII whitespace). -/
def isPyWs (c : Char) : Bool :=
  c = ' ' || c = '\t' || c = '\n' || c = '\r' || c = '\x0b' || c = '\x0c'

/-- Model of Python's `str.strip()`. -/
def pyStrip (s : String) : String :=
  String.mk (((s.toList.dropWhile isPyWs).reverse.dropWhile isPyWs).reverse)

/-- Value of a list of decimal digit characters. -/
def digitsToNat (ds : List Char) : Nat :=
  ds.foldl (fun a c => a * 10 + (c.toNat - 48)) 0

/-- Value of a hexadecimal digit character, if it is one. -/
def hexDigit? (c : Char) : Option Nat :=
  if 48 ≤ c.toNat ∧ c.toNat ≤ 57 then some (c.toNat - 48)
  else if 97 ≤ c.toNat ∧ c.toNat ≤ 102 then some (c.toNat - 87)
  else if 65 ≤ c.toNat ∧ c.toNat ≤ 70 then some (c.toNat - 55)
  else none

/-- Parse a JSON number (RFC 8259 grammar, as Python's strict decoder
does: no leading zeros, no bare `.`, mandatory digits after `.` and the
exponent marker).  Returns the value as mantissa × 10^exp10. -/
def parseNumber (l : List Char) : Option (Json × List Char) :=
  let signRest : Int × List Char :=
    match l with
    | '-' :: r => (-1, r)
    | _ => (1, l)
  let sign := signRest.1
  let l1 := signRest.2
  let intPart? : Option (List Char × List Char) :=
    match l1 with
    | '0' :: r =>
      match r with
      | c :: _ => if c.isDigit then none else some (['0'], r)
      | [] => some (['0'], [])
    | c :: r => if c.isDigit then some (c :: r.takeWhile Char.isDigit, r.dropWhile Char.isDigit) else none
    | [] => none
  match intPart? with
  | none => none
  | some (ids, l2) =>
    let fracPart? : Option (List Char × List Char) :=
      match l2 with
      | '.' :: r =>
        let fd := r.takeWhile Char.isDigit
        if fd.isEmpty then none else some (fd, r.dropWhile Char.isDigit)
      | _ => some ([], l2)
    match fracPart? with
    | none => none
    | some (fds, l3) =>
      let expPart? : Option (Int × List Char) :=
        match l3 with
        | c :: r =>
          if c = 'e' || c = 'E' then
            let esignRest : Int × List Char :=
              match r with
              | '+' :: r2 => (1, r2)
              | '-' :: r2 => (-1, r2)
              | _ => (1, r)
            let ed := esignRest.2.takeWhile Char.isDigit
            if ed.isEmpty then none
            else some (esignRest.1 * (digitsToNat ed : Int), esignRest.2.dropWhile Char.isDigit)
          else some (0, l3)
        | [] => some (0, [])
      match expPart? with
      | none => none
      | some (ev, l4) =>
        some (.num (sign * (digitsToNat (ids ++ fds) : Int)) (ev - (fds.length : Int)), l4)

/-- Insert a key/value pair into an ordered field list the way Python
dict assignment does: a duplicate key keeps its original position but
takes the new value. -/
def insertKV : List (String × Json) → String → Json → List (String × Json)
  | [], k, v => [(k, v)]
  | (k', v') :: rest, k, v =>
    if k' = k then (k, v) :: rest else (k', v') :: insertKV rest k v

/-- Body of a JSON string, the opening quote already consumed.  Strict
mode as in Python: unescaped control characters are rejected; the
standard escapes and `\uXXXX` are decoded (lone surrogate halves are
collapsed by `Char.ofNat`, an abstraction of Python's lenient surrogate
handling that no claim depends on). -/
def parseStringBody : Nat → List Char → List Char → Option (String × List Char)
  | 0, _, _ => none
  | _ + 1, _, [] => none
  | fuel + 1, acc, c :: rest =>
    if c = '"' then some (String.mk acc.reverse, rest)
    else if c = '\\' then
      match rest with
      | '"' :: r => parseStringBody fuel ('"' :: acc) r
      | '\\' :: r => parseStringBody fuel ('\\' :: acc) r
      | '/' :: r => parseStringBody fuel ('/' :: acc) r
      | 'b' :: r => parseStringBody fuel ('\x08' :: acc) r
      | 'f' :: r => parseStringBody fuel ('\x0c' :: acc) r
      | 'n' :: r => parseStringBody fuel ('\n' :: acc) r
      | 'r' :: r => parseStringBody fuel ('\r' :: acc) r
      | 't' :: r => parseStringBody fuel ('\t' :: acc) r
      | 'u' :: h1 :: h2 :: h3 :: h4 :: r =>
        match hexDigit? h1, hexDigit? h2, hexDigit? h3, hexDigit? h4 with
        | some a, some b, some c2, some d =>
          parseStringBody fuel (Char.ofNat (((a * 16 + b) * 16 + c2) * 16 + d) :: acc) r
        | _, _, _, _ => none
      | _ => none
    else if c.toNat < 32 then none
    else parseStringBody fuel (c :: acc) rest

mutual

/-- Parse one JSON value at the head of the input (no leading
whitespace). -/
def parseValue : Nat → List Char → Option (Json × List Char)
  | 0, _ => none
  | fuel + 1, l =>
    match l with
    | 'n' :: 'u' :: 'l' :: 'l' :: rest => some (.null, rest)
    | 't' :: 'r' :: 'u' :: 'e' :: rest => some (.bool true, rest)
    | 'f' :: 'a' :: 'l' :: 's' :: 'e' :: rest => some (.bool false, rest)
    | 'N' :: 'a' :: 'N' :: rest => some (.nan, rest)
    | 'I' :: 'n' :: 'f' :: 'i' :: 'n' :: 'i' :: 't' :: 'y' :: rest => some (.inf, rest)
    | '-' :: 'I' :: 'n' :: 'f' :: 'i' :: 'n' :: 'i' :: 't' :: 'y' :: rest => some (.neginf, rest)
    | '"' :: rest =>
      match parseStringBody (fuel + 1) [] rest with
      | some (s, r) => some (.str s, r)
      | none => none
    | '\x5b' :: rest => parseArrayBody fuel (skipWs rest)
    | '\x7b' :: rest => parseObjectBody fuel (skipWs rest)
    | c :: rest =>
      if c = '-' || c.isDigit then parseNumber (c :: rest) else none
    | [] => none

/-- Parse an array body, the `[` already consumed and whitespace
skipped. -/
def parseArrayBody : Nat → List Char → Option (Json × List Char)
  | 0, _ => none
  | fuel + 1, l =>
    match l with
    | '\x5d' :: rest => some (.arr [], rest)
    | _ => parseElems fuel [] l

/-- Parse the remaining comma-separated elements of a non-empty
array. -/
def parseElems : Nat → List Json → List Char → Option (Json × List Char)
  | 0, _, _ => none
  | fuel + 1, acc, l =>
    match parseValue fuel l with
    | none => none
    | some (v, rest) =>
      match skipWs rest with
      | ',' :: r => parseElems fuel (v :: acc) (skipWs r)
      | '\x5d' :: r => some (.arr (v :: acc).reverse, r)
      | _ => none

/-- Parse an object body, the opening brace already consumed and
whitespace skipped. -/
def parseObjectBody : Nat → List Char → Option (Json × List Char)
  | 0, _ => none
  | fuel + 1, l =>
    match l with
    | '\x7d' :: rest => some (.obj [], rest)
    | _ => parseMembers fuel [] l

/-- Parse the remaining `"key": value` members of a non-empty
object. -/
def parseMembers : Nat → List (String × Json) → List Char → Option (Json × List Char)
  | 0, _, _ => none
  | fuel + 1, acc, l =>
    match l with
    | '"' :: r =>
      match parseStringBody (fuel + 1) [] r with
      | none => none
      | some (k, r2) =>
        match skipWs r2 with
        | ':' :: r3 =>
          match parseValue fuel (skipWs r3) with
          | none => none
          | some (v, r4) =>
            match skipWs r4 with
            | ',' :: r5 => parseMembers fuel (insertKV acc k v) (skipWs r5)
            | '\x7d' :: r5 => some (.obj (insertKV acc k v), r5)
            | _ => none
        | _ => none
    | _ => none

end

/-- Model of Python's `json.loads`: skip surrounding whitespace, parse
exactly one value, reject trailing garbage.  The fuel argument is an
upper bound on recursion depth, amply larger than any run the input can
drive. -/
def json_loads (s : String) : Option Json :=
  match parseValue (2 * s.length + 16) (skipWs s.toList) with
  | some (v, rest) => if skipWs rest = [] then some v else none
  | none => none

/-- The normaliser of `run_analysis` (lines 166–175): strip the raw
model output, try `json.loads` on it, and on any failure substitute the
fixed fallback dict, whose `analysis_text` is the unstripped
`response.output_text`. -/
def normalize (raw : String) : Json :=
  match json_loads (pyStrip raw) with
  | some data => data
  | none =>
    Json.obj [("risk_score", Json.num 50 0),
              ("risk_level", Json.str "Medium"),
              ("issues", Json.arr [Json.str "AI returned unstructured output"]),
              ("analysis_text", Json.str raw)]

/-- Look up a key in an ordered field list (Python dict lookup). -/
def lookupKV : List (String × Json) → String → Option Json
  | [], _ => none
  | (k, v) :: rest, key => if k = key then some v else lookupKV rest key

/-- Whether a JSON value is an object carrying the given field. -/
def has_field (j : Json) (key : String) : Bool :=
  match j with
  | .obj kvs => (lookupKV kvs key).isSome
  | _ => false

/-- Decimal rendering of a parsed JSON number (exact for the integers
the script's records carry; scientific notation for the rest — the
exact float formatting is abstracted, no claim inspects it). -/
def numToString (m e : Int) : String :=
  if e = 0 then toString m else toString m ++ "e" ++ toString e

mutual

/-- Model of Python's `str()` on a value returned by `json.loads`, as
used by the f-strings building the Markdown summary. -/
def py_str : Json → String
  | .null => "None"
  | .bool true => "True"
  | .bool false => "False"
  | .num m e => numToString m e
  | .nan => "nan"
  | .inf => "inf"
  | .neginf => "-inf"
  | .str s => s
  | .arr es => "[" ++ py_str_list es ++ "]"
  | .obj kvs => "\x7b" ++ py_str_fields kvs ++ "\x7d"

/-- Elements of a list under Python's `repr`, comma separated. -/
def py_str_list : List Json → String
  | [] => ""
  | [e] => py_repr e
  | e :: rest => py_repr e ++ ", " ++ py_str_list rest

/-- Fields of a dict under Python's `repr`, comma separated. -/
def py_str_fields : List (String × Json) → String
  | [] => ""
  | [(k, v)] => "'" ++ k ++ "': " ++ py_repr v
  | (k, v) :: rest => "'" ++ k ++ "': " ++ py_repr v ++ ", " ++ py_str_fields rest

/-- Model of Python's `repr()` on a value returned by `json.loads`
(differs from `str()` only on strings, which get quoted). -/
def py_repr : Json → String
  | .str s => "'" ++ s ++ "'"
  | .null => "None"
  | .bool true => "True"
  | .bool false => "False"
  | .num m e => numToString m e
  | .nan => "nan"
  | .inf => "inf"
  | .neginf => "-inf"
  | .arr es => "[" ++ py_str_list es ++ "]"
  | .obj kvs => "\x7b" ++ py_str_fields kvs ++ "\x7d"

end

/-- Python iteration over the value bound to `issues`: lists yield their
elements, strings their characters, dicts their keys; any other value
raises `TypeError` (modelled as `none`). -/
def iter_items : Json → Option (List Json)
  | .arr es => some es
  | .str s => some (s.toList.map (fun c => Json.str (String.mk [c])))
  | .obj kvs => some (kvs.map (fun kv => Json.str kv.1))
  | _ => none

/-- Join a list of strings with a separator, as Python's `sep.join`. -/
def joinSep (sep : String) : List String → String
  | [] => ""
  | [p] => p
  | p :: rest => p ++ sep ++ joinSep sep rest

/-- The summary construction of `run_analysis` (lines 183–187).
`data['risk_score']` and `data['risk_level']` raise `KeyError` on a dict
missing the key and `TypeError` on a non-dict; iterating a non-iterable
`issues` raises `TypeError`.  All such exceptions are modelled as
`none`; the script has no handler for them, so `none` is a crash of the
run. -/
def render_summary (data : Json) : Option String :=
  match data with
  | .obj kvs =>
    match lookupKV kvs "risk_score", lookupKV kvs "risk_level" with
    | some rs, some rl =>
      match iter_items ((lookupKV kvs "issues").getD (Json.arr [])) with
      | some items =>
        some ("**Risk Score:** " ++ py_str rs ++ " (" ++ py_str rl ++ ")\n\n"
          ++ "**Detected Issues:**\n"
          ++ joinSep "\n" (items.map (fun i => "- " ++ py_str i))
          ++ "\n\n**AI Analysis:**\n"
          ++ py_str ((lookupKV kvs "analysis_text").getD (Json.str "")))
      | none => none
    | _, _ => none
  | _ => none

/-- Escape one character for JSON string output. -/
def jsonEscapeChar (c : Char) : String :=
  if c = '"' then "\\\""
  else if c = '\\' then "\\\\"
  else if c = '\n' then "\\n"
  else if c = '\t' then "\\t"
  else if c = '\r' then "\\r"
  else String.mk [c]

mutual

/-- Model of the `json.dump(data, f, indent=2)` serialisation of the
risk record (line 180): total on every value `json.loads` or the
fallback can produce, so the risk-file write always succeeds.  The
indent formatting is abstracted to a compact rendering; no claim
inspects the written text beyond its existence. -/
def json_dumps : Json → String
  | .null => "null"
  | .bool true => "true"
  | .bool false => "false"
  | .num m e => numToString m e
  | .nan => "NaN"
  | .inf => "Infinity"
  | .neginf => "-Infinity"
  | .str s => "\"" ++ joinSep "" (s.toList.map jsonEscapeChar) ++ "\""
  | .arr es => "[" ++ json_dumps_list es ++ "]"
  | .obj kvs => "\x7b" ++ json_dumps_fields kvs ++ "\x7d"

/-- Serialise array elements. -/
def json_dumps_list : List Json → String
  | [] => ""
  | [e] => json_dumps e
  | e :: rest => json_dumps e ++ ", " ++ json_dumps_list rest

/-- Serialise object fields. -/
def json_dumps_fields : List (String × Json) → String
  | [] => ""
  | [(k, v)] => "\"" ++ k ++ "\": " ++ json_dumps v
  | (k, v) :: rest => "\"" ++ k ++ "\": " ++ json_dumps v ++ ", " ++ json_dumps_fields rest

end

/-- Boolean test that the first list begins the second. -/
def listStarts : List Char → List Char → Bool
  | [], _ => true
  | _ :: _, [] => false
  | p :: ps, c :: cs => p == c && listStarts ps cs

/-- Boolean string prefix test over the underlying character lists. -/
def strStartsWith (s pat : String) : Bool :=
  listStarts pat.toList s.toList

/-- Boolean string suffix test, the model of Python's `endswith`. -/
def strEndsWith (s pat : String) : Bool :=
  listStarts pat.toList.reverse s.toList.reverse

/-- Whether `pat` occurs starting at some position of the list. -/
def strContainsAux (pat : List Char) : List Char → Bool
  | [] => listStarts pat []
  | c :: cs => listStarts pat (c :: cs) || strContainsAux pat cs

/-- Boolean substring test. -/
def strContains (s pat : String) : Bool :=
  strContainsAux pat.toList s.toList

/-- The suffix filter of the repo-mode walk (line 17):
`file.endswith(('.yml', '.yaml', '.json'))`. -/
def is_cfg_file (name : String) : Bool :=
  strEndsWith name ".yml" || strEndsWith name ".yaml" || strEndsWith name ".json"

/-- One git subprocess result: its captured stdout, or the message of
the exception `subprocess.check_output` raised. -/
abbrev GitResult := Except String String

/-- The file sections the repo-mode walk appends (lines 15–23): one
section per readable file with a matching suffix; a file whose open or
read raises is silently skipped (`except Exception: pass`).  The input
list carries the walk's basenames in discovery order, each with its read
outcome (`open` with `errors='ignore'` never raises on decoding, so an
error here is an OS-level failure such as a permission error). -/
def file_sections : List (String × Except String String) → List String
  | [] => []
  | (name, r) :: rest =>
    (if is_cfg_file name then
      match r with
      | .ok content => ["### File: " ++ name ++ "\n" ++ content]
      | .error _ => []
     else []) ++ file_sections rest

/-- The commit-log section of repo mode (lines 26–33): the `git log`
output under a header, or an inline error marker. -/
def log_section : GitResult → String
  | .ok out => "### Recent Commits\n" ++ out
  | .error e => "[Error collecting git log: " ++ e ++ "]"

/-- The diff section of repo mode (lines 36–43): the `git diff HEAD~5
HEAD` output under a header, or an inline error marker. -/
def diff_section : GitResult → String
  | .ok out => "### Recent Changes (diff)\n" ++ out
  | .error e => "[Error collecting git diff: " ++ e ++ "]"

/-- The ordered `context_parts` list of `collect_repo_context`. -/
def repo_context_parts (files : List (String × Except String String))
    (git_log git_diff : GitResult) : List String :=
  file_sections files ++ [log_section git_log, diff_section git_diff]

/-- Embedding of `collect_repo_context` (lines 10–45): file sections,
then the commit-log and diff sections, joined by `"\n\n".join`. -/
def collect_repo_context (files : List (String × Except String String))
    (git_log git_diff : GitResult) : String :=
  joinSep "\n\n" (repo_context_parts files git_log git_diff)

/-- The effectful inputs `collect_pr_context` consumes, for one
repository path: the changed-files listing between the two refs, the
existence and read outcome of each path (`none` = `os.path.exists` is
false; `some (.error m)` = the open or read raised), the per-file diff,
and the commit-range log.  Repo-mode inputs are carried alongside so one
structure describes a repository to every mode. -/
structure RepoWorld where
  cfgFiles : List (String × Except String String)
  gitLog20 : GitResult
  gitDiff5 : GitResult
  prChanged : String → String → GitResult
  fileRead : String → Option (Except String String)
  fileDiff : String → String → String → GitResult
  prLog : String → String → GitResult

/-- Model of Python's `s.split("\n")`: never empty, keeps empty
pieces. -/
def pySplitNlAux (acc : List Char) : List Char → List String
  | [] => [String.mk acc.reverse]
  | c :: rest =>
    if c = '\n' then String.mk acc.reverse :: pySplitNlAux [] rest
    else pySplitNlAux (c :: acc) rest

/-- Split a string at newlines, Python `str.split("\n")` style. -/
def pySplitNl (s : String) : List String :=
  pySplitNlAux [] s.toList

/-- The loop body of `collect_pr_context` for one changed path (lines
62–85): skip blank names; append a content section when the file exists
(an inline error marker when reading it raises); then append a diff
section (an inline error marker when the diff command raises). -/
def pr_file_section (w : RepoWorld) (base head fp : String) : List String :=
  if pyStrip fp = "" then []
  else
    (match w.fileRead fp with
     | none => []
     | some (.ok content) => ["### File: " ++ fp ++ "\n" ++ content]
     | some (.error _) => ["[Error reading file: " ++ fp ++ "]"]) ++
    (match w.fileDiff base head fp with
     | .ok d => ["### Diff for " ++ fp ++ "\n" ++ d]
     | .error _ => ["[Error getting diff for: " ++ fp ++ "]"])

/-- The `for file_path in changed_files` loop, appending each file's
sections in order. -/
def sections_for_files (w : RepoWorld) (base head : String) : List String → List String
  | [] => []
  | fp :: rest => pr_file_section w base head fp ++ sections_for_files w base head rest

/-- The ordered `context_parts` list of `collect_pr_context` (lines
50–95).  The whole body sits in one `try`: if the changed-files listing
raises, nothing else runs and the sole part is the outer error marker;
if the trailing commit-range log raises, the outer handler appends the
marker after the already-collected parts. -/
def pr_context_parts (w : RepoWorld) (base head : String) : List String :=
  match w.prChanged base head with
  | .error e => ["[Error collecting PR context: " ++ e ++ "]"]
  | .ok out =>
    let changed := pySplitNl (pyStrip out)
    let parts := ("### Changed Files\n" ++ joinSep "\n" changed)
      :: sections_for_files w base head changed
    match w.prLog base head with
    | .ok l => parts ++ ["### PR Commits\n" ++ l]
    | .error e => parts ++ ["[Error collecting PR context: " ++ e ++ "]"]

/-- Embedding of `collect_pr_context` (lines 48–97). -/
def collect_pr_context (w : RepoWorld) (base head : String) : String :=
  joinSep "\n\n" (pr_context_parts w base head)

/-- Python truthiness of an `os.getenv` result: `None` and the empty
string are falsy. -/
def pyTruthy : Option String → Bool
  | none => false
  | some s => !(s == "")

/-- The environment variables `run_analysis` reads. -/
structure Env where
  genops_api_key : Option String
  base_sha : Option String
  head_sha : Option String

/-- The ways `run_analysis` terminates abnormally: a raised
`ValueError` (configuration), a transport or auth exception escaping
the model call, or an unhandled exception while building the summary
from an ill-shaped record. -/
inductive RunError where
  | config (msg : String) : RunError
  | model (msg : String) : RunError
  | render : RunError

/-- The constant context of demo mode (line 129). -/
def demo_context : String :=
  "This is a simulated CI/CD pipeline log with no real data."

/-- The structured-risk prompt template (lines 142–158), an f-string
with the context interpolated at its single insertion point. -/
def build_prompt (context : String) : String :=
  "\n    You are GenOps Guardian — an AI DevOps assistant.\n    Analyze the following repository or PR data and output a JSON object with:\n    - \"risk_score\": integer (0-100, where 100 is most risky)\n    - \"risk_level\": Low / Medium / High\n    - \"issues\": list of detected problems\n    - \"analysis_text\": a short human-readable explanation\n\n    Base your score on:\n    1. Potential pipeline failures (weight 30%)\n    2. Security issues (weight 40%)\n    3. Optimization/code quality suggestions (weight 20%)\n    4. Size/complexity of changes (weight 10%)\n\n    ---\n    "
    ++ context ++ "\n    "

/-- The context selection of `run_analysis` (lines 127–139): demo mode
uses the constant string and touches neither the filesystem nor git;
real mode runs the repo collector; pr mode requires truthy `BASE_SHA`
and `HEAD_SHA` and runs the PR collector; any other mode raises. -/
def select_context (mode repo_path : String) (env : Env)
    (world : String → RepoWorld) : Except RunError String :=
  if mode == "demo" then .ok demo_context
  else if mode == "real" then
    .ok (collect_repo_context (world repo_path).cfgFiles
          (world repo_path).gitLog20 (world repo_path).gitDiff5)
  else if mode == "pr" then
    if pyTruthy env.base_sha && pyTruthy env.head_sha then
      .ok (collect_pr_context (world repo_path)
            (env.base_sha.getD "") (env.head_sha.getD ""))
    else
      .error (.config "BASE_SHA and HEAD_SHA environment variables are required for PR mode.")
  else .error (.config "Mode must be 'real', 'demo', or 'pr'.")

/-- Embedding of `run_analysis` (lines 119–189).  The remote model call
is the `modelCall` parameter, applied to the built prompt only after the
credential check and context collection succeed; its result is the raw
`response.output_text`.  The risk-record write (`json_dumps`) is total;
the summary construction may raise on an ill-shaped record, which ends
the run with `RunError.render` since the script has no handler for
it. -/
def run_analysis (mode repo_path : String) (env : Env)
    (world : String → RepoWorld)
    (modelCall : String → Except String String) : Except RunError String :=
  if !(pyTruthy env.genops_api_key) then
    .error (.config "GENOPS_API_KEY environment variable is missing!")
  else
    match select_context mode repo_path env world with
    | .error e => .error e
    | .ok context =>
      match modelCall (build_prompt context) with
      | .error e => .error (.model e)
      | .ok output_text =>
        let data := normalize output_text
        let _risk_file := json_dumps data
        match render_summary data with
        | some summary => .ok summary
        | none => .error .render

/-- What `post_pr_comment` does on one call: not reached at all, skipped
with the missing-credentials warning, posted, or an error printed by its
`except` handler.  Every branch returns normally — the function never
lets an exception escape. -/
inductive PostOutcome where
  | notAttempted : PostOutcome
  | skippedWarning : PostOutcome
  | posted : PostOutcome
  | errorLogged : PostOutcome
  deriving DecidableEq

/-- Model of Python's `int()` on a string: optional surrounding
whitespace and sign, then decimal digits. -/
def py_int? (s : String) : Option Int :=
  let t := (pyStrip s).toList
  match t with
  | '-' :: ds =>
    if !ds.isEmpty && ds.all Char.isDigit then some (-(digitsToNat ds : Int)) else none
  | '+' :: ds =>
    if !ds.isEmpty && ds.all Char.isDigit then some (digitsToNat ds : Int) else none
  | ds =>
    if !ds.isEmpty && ds.all Char.isDigit then some (digitsToNat ds : Int) else none

/-- Embedding of `post_pr_comment` (lines 100–116): with a falsy token
or repository name it prints a warning and returns; otherwise the whole
hosting interaction (including `int(pr_number)`) sits in a `try` whose
handler prints the error, so no failure propagates. -/
def post_pr_comment (token repo_name : Option String) (pr_number : String)
    (api : Except String Unit) : PostOutcome :=
  if !(pyTruthy token) || !(pyTruthy repo_name) then .skippedWarning
  else
    match py_int? pr_number with
    | none => .errorLogged
    | some _ =>
      match api with
      | .ok _ => .posted
      | .error _ => .errorLogged

/-- The `__main__` block after `run_analysis` returns (lines 198–211):
print the result, write it to `analysis_results/output.txt`, and in pr
mode post a comment only when `PR_NUMBER` is truthy.  The returned pair
is the text written to the output file and what became of the
posting. -/
def main_flow (mode : String) (runResult : Except RunError String)
    (pr_number token repo_name : Option String)
    (api : Except String Unit) : Except RunError (String × PostOutcome) :=
  match runResult with
  | .error e => .error e
  | .ok result =>
    let outcome :=
      if mode == "pr" then
        if pyTruthy pr_number then
          post_pr_comment token repo_name (pr_number.getD "") api
        else .notAttempted
      else .notAttempted
    .ok (result, outcome)

/-- Modelled from the spec: the repository's general-analysis and
PR-review pipeline variants are not present under `src/` (only the
structured-risk script `scripts/review_pr.py` is; the spec describes
the repository as "this pipeline, repeated in three near-duplicate
versions").  Per the spec's Result Normalizer contract, "For
general/PR-review modes: the raw text itself is the result; no parsing
attempted." -/
def normalize_freeform (raw : String) : String := raw

/-- A concrete filesystem/git environment used by witnesses: the file
`b.txt` exists but cannot be read, its diff command fails, everything
else succeeds. -/
def w_test : RepoWorld :=
  ⟨[("app.yml", .ok "k: v")], .ok "L", .ok "D",
   fun _ _ => .ok "a.txt\nb.txt\nc.txt",
   fun p => if p = "b.txt" then some (.error "EACCES") else some (.ok "content"),
   fun _ _ p => if p = "b.txt" then .error "fatal" else .ok "d",
   fun _ _ => .ok "P"⟩

theorem listStarts_append (p l m : List Char) (h : listStarts p l = true) :
    listStarts p (l ++ m) = true := by
  induction p generalizing l with
  | nil => rfl
  | cons c cs ih =>
    cases l with
    | nil => simp [listStarts] at h
    | cons d ds =>
      simp only [listStarts, List.cons_append, Bool.and_eq_true, beq_iff_eq] at h ⊢
      exact ⟨h.1, ih ds h.2⟩

theorem strStartsWith_append (a b pat : String)
    (h : strStartsWith a pat = true) : strStartsWith (a ++ b) pat = true := by
  unfold strStartsWith at *
  have : (a ++ b).toList = a.toList ++ b.toList := String.data_append a b
  rw [this]
  exact listStarts_append _ _ _ h

theorem file_sections_append (l m : List (String × Except String String)) :
    file_sections (l ++ m) = file_sections l ++ file_sections m := by
  induction l with
  | nil => rfl
  | cons f rest ih =>
    obtain ⟨name, r⟩ := f
    simp only [List.cons_append, file_sections, List.append_eq, ih, List.append_assoc]

theorem file_sections_nil_of (l : List (String × Except String String))
    (h : ∀ f ∈ l, is_cfg_file f.1 = false) : file_sections l = [] := by
  induction l with
  | nil => rfl
  | cons f rest ih =>
    obtain ⟨name, r⟩ := f
    have hf : is_cfg_file name = false := h (name, r) (List.mem_cons_self _ _)
    simp only [file_sections, hf, Bool.false_eq_true, if_false, List.nil_append]
    exact ih (fun g hg => h g (List.mem_cons_of_mem _ hg))

theorem sections_for_files_append (w : RepoWorld) (b h : String)
    (l m : List String) :
    sections_for_files w b h (l ++ m)
      = sections_for_files w b h l ++ sections_for_files w b h m := by
  induction l with
  | nil => rfl
  | cons fp rest ih =>
    simp only [List.cons_append, sections_for_files, List.append_eq, ih, List.append_assoc]

theorem file_sections_starts (files : List (String × Except String String)) :
    ∀ p ∈ file_sections files, strStartsWith p "### " = true := by
  induction files with
  | nil => intro p hp; simp [file_sections] at hp
  | cons f rest ih =>
    intro p hp
    obtain ⟨name, r⟩ := f
    simp only [file_sections] at hp
    rw [List.mem_append] at hp
    rcases hp with hp | hp
    · cases r with
      | ok content =>
        split at hp
        · rw [List.mem_singleton] at hp
          subst hp
          exact strStartsWith_append _ _ _
            (strStartsWith_append _ _ _ (strStartsWith_append "### File: " name _ rfl))
        · simp at hp
      | error e =>
        split at hp <;> simp at hp
    · exact ih p hp

theorem log_section_shape (g : GitResult) :
    strStartsWith (log_section g) "### " = true
    ∨ strStartsWith (log_section g) "[Error" = true := by
  cases g with
  | ok out => exact Or.inl (strStartsWith_append _ _ _ rfl)
  | error e =>
    exact Or.inr (strStartsWith_append _ _ _
      (strStartsWith_append "[Error collecting git log: " e _ rfl))

theorem diff_section_shape (g : GitResult) :
    strStartsWith (diff_section g) "### " = true
    ∨ strStartsWith (diff_section g) "[Error" = true := by
  cases g with
  | ok out => exact Or.inl (strStartsWith_append _ _ _ rfl)
  | error e =>
    exact Or.inr (strStartsWith_append _ _ _
      (strStartsWith_append "[Error collecting git diff: " e _ rfl))

theorem pr_file_section_shape (w : RepoWorld) (b h fp : String) :
    ∀ p ∈ pr_file_section w b h fp,
      strStartsWith p "### " = true ∨ strStartsWith p "[Error" = true := by
  intro p hp
  unfold pr_file_section at hp
  split at hp
  · simp at hp
  · rw [List.mem_append] at hp
    rcases hp with hp | hp
    · split at hp
      · simp at hp
      · rw [List.mem_singleton] at hp
        subst hp
        exact Or.inl (strStartsWith_append _ _ _
          (strStartsWith_append _ _ _ (strStartsWith_append "### File: " fp _ rfl)))
      · rw [List.mem_singleton] at hp
        subst hp
        exact Or.inr (strStartsWith_append _ _ _
          (strStartsWith_append "[Error reading file: " fp _ rfl))
    · split at hp
      · rw [List.mem_singleton] at hp
        subst hp
        exact Or.inl (strStartsWith_append _ _ _
          (strStartsWith_append _ _ _ (strStartsWith_append "### Diff for " fp _ rfl)))
      · rw [List.mem_singleton] at hp
        subst hp
        exact Or.inr (strStartsWith_append _ _ _
          (strStartsWith_append "[Error getting diff for: " fp _ rfl))

theorem sections_for_files_shape (w : RepoWorld) (b h : String)
    (fps : List String) :
    ∀ p ∈ sections_for_files w b h fps,
      strStartsWith p "### " = true ∨ strStartsWith p "[Error" = true := by
  induction fps with
  | nil => intro p hp; simp [sections_for_files] at hp
  | cons fp rest ih =>
    intro p hp
    simp only [sections_for_files] at hp
    rw [List.mem_append] at hp
    rcases hp with hp | hp
    · exact pr_file_section_shape w b h fp p hp
    · exact ih p hp

/- ------------------------------------------------------------------ -/
/- Claim theorems                                                      -/
/- ------------------------------------------------------------------ -/

/-- C1: in structured-risk mode, every model response whose trimmed
text is not valid JSON is normalised to the fixed fallback record —
`risk_score` 50, `risk_level` "Medium", exactly the one sentinel issue
string, and `analysis_text` equal to the original raw response text. -/
theorem c1_structured_fallback (raw : String)
    (h : json_loads (pyStrip raw) = none) :
    normalize raw
      = Json.obj [("risk_score", Json.num 50 0),
                  ("risk_level", Json.str "Medium"),
                  ("issues", Json.arr [Json.str "AI returned unstructured output"]),
                  ("analysis_text", Json.str raw)] := by
  unfold normalize
  rw [h]

/-- Witness for C1 at the spec's own example text. -/
theorem c1_structured_fallback_witness :
    json_loads (pyStrip "not json at all") = none
    ∧ normalize "not json at all"
      = Json.obj [("risk_score", Json.num 50 0),
                  ("risk_level", Json.str "Medium"),
                  ("issues", Json.arr [Json.str "AI returned unstructured output"]),
                  ("analysis_text", Json.str "not json at all")] :=
  ⟨rfl, c1_structured_fallback "not json at all" rfl⟩

/-- C2: in structured-risk mode, every response whose trimmed text
parses as a JSON object carrying the four required fields is returned by
the normaliser exactly as parsed — no field altered, dropped, added or
bounds-checked. -/
theorem c2_roundtrip_identity (raw : String) (j : Json)
    (hp : json_loads (pyStrip raw) = some j)
    (h1 : has_field j "risk_score" = true)
    (h2 : has_field j "risk_level" = true)
    (h3 : has_field j "issues" = true)
    (h4 : has_field j "analysis_text" = true) :
    normalize raw = j := by
  unfold normalize
  rw [hp]

/-- Witness for C2 at a concrete well-formed structured response. -/
theorem c2_roundtrip_identity_witness :
    json_loads (pyStrip "\x7b\"risk_score\": 10, \"risk_level\": \"Low\", \"issues\": [\"a\"], \"analysis_text\": \"ok\"\x7d")
      = some (Json.obj [("risk_score", Json.num 10 0), ("risk_level", Json.str "Low"),
                        ("issues", Json.arr [Json.str "a"]), ("analysis_text", Json.str "ok")])
    ∧ normalize "\x7b\"risk_score\": 10, \"risk_level\": \"Low\", \"issues\": [\"a\"], \"analysis_text\": \"ok\"\x7d"
      = Json.obj [("risk_score", Json.num 10 0), ("risk_level", Json.str "Low"),
                  ("issues", Json.arr [Json.str "a"]), ("analysis_text", Json.str "ok")] :=
  ⟨rfl, c2_roundtrip_identity _ _ rfl rfl rfl rfl rfl⟩

/-- C3 (code bug): on the response text `"{}"` — valid JSON, but an
object without the four required fields — normalisation returns the
bare empty object, so the record is not well-shaped; the risk-file
serialisation still succeeds, but the summary construction raises
`KeyError` at `data['risk_score']`, and with no handler the run
crashes.  This contradicts the spec's requirement that the run never
crash solely because the model's output is malformed. -/
theorem c3_malformed_response_crash :
    normalize "\x7b\x7d" = Json.obj []
    ∧ has_field (normalize "\x7b\x7d") "risk_score" = false
    ∧ json_dumps (normalize "\x7b\x7d") = "\x7b\x7d"
    ∧ render_summary (normalize "\x7b\x7d") = none :=
  ⟨rfl, rfl, rfl, rfl⟩

/-- C5: with `GENOPS_API_KEY` unset, `run_analysis` raises the
configuration `ValueError` for every mode and repository path; the
result does not depend on the model-call parameter at all, so no
network call is attempted. -/
theorem c5_missing_credential (mode repo_path : String) (env : Env)
    (world : String → RepoWorld) (modelCall : String → Except String String)
    (h : env.genops_api_key = none) :
    run_analysis mode repo_path env world modelCall
      = .error (.config "GENOPS_API_KEY environment variable is missing!") := by
  unfold run_analysis
  rw [h]
  rfl

/-- Witness for C5 at a concrete environment and world. -/
theorem c5_missing_credential_witness :
    (⟨none, none, none⟩ : Env).genops_api_key = none
    ∧ run_analysis "real" "." ⟨none, none, none⟩
        (fun _ => ⟨[], .ok "", .ok "", fun _ _ => .ok "", fun _ => none,
                   fun _ _ _ => .ok "", fun _ _ => .ok ""⟩)
        (fun _ => .ok "irrelevant")
      = .error (.config "GENOPS_API_KEY environment variable is missing!") :=
  ⟨rfl, c5_missing_credential _ _ _ _ _ rfl⟩

/-- C6: in the general-analysis and PR-review pipeline variants
(modelled from the spec, their scripts being absent from `src/`), the
normaliser returns the raw model response text itself, unchanged. -/
theorem c6_freeform_raw_result (raw : String) :
    normalize_freeform raw = raw := rfl

/-- C10: in demo mode the selected context is the fixed constant string
— the selection consults neither the repository path nor the
filesystem/git world — so any two invocations build the identical
prompt. -/
theorem c10_demo_constant_prompt (repo_path repo_path' : String)
    (env env' : Env) (world world' : String → RepoWorld) :
    select_context "demo" repo_path env world = .ok demo_context
    ∧ (select_context "demo" repo_path env world).map build_prompt
        = (select_context "demo" repo_path' env' world').map build_prompt :=
  ⟨rfl, rfl⟩

/-- C4 is refuted as stated: in repo mode an unreadable configuration
file is skipped silently (`except Exception: pass`), leaving no inline
error marker anywhere in the Context Blob. -/
theorem c4_counterexample :
    collect_repo_context [("config.yml", .error "Permission denied")] (.ok "L") (.ok "D")
      = "### Recent Commits\nL\n\n### Recent Changes (diff)\nD"
    ∧ strContains
        (collect_repo_context [("config.yml", .error "Permission denied")] (.ok "L") (.ok "D"))
        "[Error" = false :=
  ⟨rfl, rfl⟩

/-- C4 (amended): data-collection errors never abort collection, but
only some of them leave inline markers — a repo-mode unreadable file is
dropped silently while the remaining files are still processed; failed
git log/diff commands in repo mode become inline markers after the file
sections; and in PR mode the loop splits around any changed file, a
file whose read and diff both fail contributing exactly its two inline
markers while every other file is still processed. -/
theorem c4_error_recovery (w : RepoWorld) (b h : String)
    (pre post : List String) (fp : String)
    (files : List (String × Except String String))
    (name er el ed eread ediff : String) (log diff : GitResult) :
    collect_repo_context ((name, Except.error er) :: files) log diff
        = collect_repo_context files log diff
    ∧ repo_context_parts files (.error el) (.error ed)
        = file_sections files
          ++ ["[Error collecting git log: " ++ el ++ "]",
              "[Error collecting git diff: " ++ ed ++ "]"]
    ∧ sections_for_files w b h (pre ++ fp :: post)
        = sections_for_files w b h pre ++ pr_file_section w b h fp
          ++ sections_for_files w b h post
    ∧ (pyStrip fp ≠ "" → w.fileRead fp = some (.error eread) →
        w.fileDiff b h fp = .error ediff →
        pr_file_section w b h fp
          = ["[Error reading file: " ++ fp ++ "]",
             "[Error getting diff for: " ++ fp ++ "]"]) := by
  refine ⟨?_, rfl, ?_, ?_⟩
  · simp [collect_repo_context, repo_context_parts, file_sections]
  · rw [sections_for_files_append]
    simp only [sections_for_files, List.append_assoc]
  · intro h1 h2 h3
    unfold pr_file_section
    rw [if_neg h1, h2, h3]
    rfl

/-- Witness for C4's amended statement in the world `w_test`, whose
file `b.txt` fails both its read and its diff. -/
theorem c4_error_recovery_witness :
    pyStrip "b.txt" ≠ ""
    ∧ w_test.fileRead "b.txt" = some (.error "EACCES")
    ∧ w_test.fileDiff "B" "H" "b.txt" = .error "fatal"
    ∧ pr_file_section w_test "B" "H" "b.txt"
        = ["[Error reading file: b.txt]", "[Error getting diff for: b.txt]"]
    ∧ sections_for_files w_test "B" "H" (["a.txt"] ++ "b.txt" :: ["c.txt"])
        = sections_for_files w_test "B" "H" ["a.txt"]
          ++ pr_file_section w_test "B" "H" "b.txt"
          ++ sections_for_files w_test "B" "H" ["c.txt"]
    ∧ collect_repo_context [("bad.yml", .error "boom"), ("app.yml", .ok "k: v")] (.ok "L") (.ok "D")
        = collect_repo_context [("app.yml", .ok "k: v")] (.ok "L") (.ok "D") :=
  ⟨by decide, rfl, rfl,
   (c4_error_recovery w_test "B" "H" ["a.txt"] ["c.txt"] "b.txt" [] "" "" "" "" "EACCES" "fatal" (.ok "") (.ok "")).2.2.2
     (by decide) rfl rfl,
   (c4_error_recovery w_test "B" "H" ["a.txt"] ["c.txt"] "b.txt" [] "" "" "" "" "EACCES" "fatal" (.ok "") (.ok "")).2.2.1,
   (c4_error_recovery w_test "B" "H" [] [] "" [("app.yml", .ok "k: v")] "bad.yml" "boom" "" "" "" "" (.ok "L") (.ok "D")).1⟩

/-- C7: in repo mode, a directory whose only matching configuration
file is one `.yml` file yields a Context Blob of exactly three
sections — that file's section with its exact content, then the
commit-log section, then the diff section (each of the latter an inline
error marker if its git command failed). -/
theorem c7_single_yml_blob (pre post : List (String × Except String String))
    (name c : String) (log diff : GitResult)
    (hname : strEndsWith name ".yml" = true)
    (hothers : ∀ f ∈ pre ++ post, is_cfg_file f.1 = false) :
    collect_repo_context (pre ++ (name, Except.ok c) :: post) log diff
      = joinSep "\n\n" ["### File: " ++ name ++ "\n" ++ c,
                        log_section log, diff_section diff] := by
  have hcfg : is_cfg_file name = true := by
    simp [is_cfg_file, hname]
  have hpre : file_sections pre = [] :=
    file_sections_nil_of _ (fun f hf => hothers f (List.mem_append_left _ hf))
  have hpost : file_sections post = [] :=
    file_sections_nil_of _ (fun f hf => hothers f (List.mem_append_right _ hf))
  unfold collect_repo_context repo_context_parts
  rw [file_sections_append, hpre]
  simp only [file_sections, hcfg, if_true, hpost, List.nil_append, List.append_nil,
    List.singleton_append]

/-- Witness for C7: one `.yml` among non-matching files, with a failing
diff command. -/
theorem c7_single_yml_blob_witness :
    strEndsWith "ci.yml" ".yml" = true
    ∧ (∀ f ∈ [("README.md", Except.ok "hello")] ++ [("notes.txt", Except.error "x")],
        is_cfg_file (f : String × Except String String).1 = false)
    ∧ collect_repo_context
        ([("README.md", Except.ok "hello")]
          ++ ("ci.yml", Except.ok "stages: [build]") :: [("notes.txt", Except.error "x")])
        (.ok "L") (.error "short history")
      = "### File: ci.yml\nstages: [build]\n\n### Recent Commits\nL\n\n[Error collecting git diff: short history]" :=
  ⟨rfl, by decide,
   c7_single_yml_blob [("README.md", Except.ok "hello")] [("notes.txt", Except.error "x")]
     "ci.yml" "stages: [build]" (.ok "L") (.error "short history") rfl (by decide)⟩

/-- C8 is refuted as stated: with the PR identifier missing (but the
hosting credentials present) the posting step is silently not reached —
no warning is printed — though the run still succeeds and the local
output file is written. -/
theorem c8_counterexample :
    main_flow "pr" (.ok "S") none (some "t") (some "r") (.ok ())
      = .ok ("S", PostOutcome.notAttempted)
    ∧ PostOutcome.notAttempted ≠ PostOutcome.skippedWarning :=
  ⟨rfl, by decide⟩

/-- C8 (amended): in a PR-triggered run the local output file is always
written with the analysis result and posting is never fatal; a missing
PR identifier skips posting silently, while missing hosting credentials
skip it with the printed warning. -/
theorem c8_post_degrades (s : String) (pn token repo_name : Option String)
    (api : Except String Unit) :
    main_flow "pr" (.ok s) none token repo_name api = .ok (s, .notAttempted)
    ∧ (pyTruthy pn = true →
        pyTruthy token = false ∨ pyTruthy repo_name = false →
        main_flow "pr" (.ok s) pn token repo_name api = .ok (s, .skippedWarning)) := by
  constructor
  · rfl
  · intro hpn hcred
    unfold main_flow
    simp only [hpn, if_true]
    unfold post_pr_comment
    rcases hcred with hc | hc <;> simp [hc]

/-- Witness for C8's amended statement. -/
theorem c8_post_degrades_witness :
    pyTruthy (some "7") = true
    ∧ pyTruthy (none : Option String) = false
    ∧ main_flow "pr" (.ok "S") (some "7") none (some "r") (.ok ())
        = .ok ("S", .skippedWarning)
    ∧ main_flow "pr" (.ok "S") none none (some "r") (.ok ())
        = .ok ("S", .notAttempted) :=
  ⟨rfl, rfl,
   (c8_post_degrades "S" (some "7") none (some "r") (.ok ())).2 rfl (Or.inl rfl),
   (c8_post_degrades "S" none none (some "r") (.ok ())).1⟩

/-- C9 is refuted as stated: when a git command fails, the inline error
marker becomes a section of its own with no `###` header line, so not
every collected section is introduced by a `### <label>` header. -/
theorem c9_counterexample :
    repo_context_parts [] (.error "boom") (.ok "D")
      = ["[Error collecting git log: boom]", "### Recent Changes (diff)\nD"]
    ∧ strStartsWith "[Error collecting git log: boom]" "### " = false
    ∧ collect_repo_context [] (.error "boom") (.ok "D")
      = "[Error collecting git log: boom]\n\n### Recent Changes (diff)\nD" :=
  ⟨rfl, rfl, rfl⟩

/-- C9 (amended): both collectors assemble the blob by joining their
collected sections, in collection order, with exactly one blank line
(`"\n\n"`) between consecutive sections; every section either is
introduced by a `### <label>` header line or is a bracketed inline
error marker starting with `[Error`. -/
theorem c9_blob_assembly (files : List (String × Except String String))
    (log diff : GitResult) (w : RepoWorld) (b h : String) :
    collect_repo_context files log diff
        = joinSep "\n\n" (repo_context_parts files log diff)
    ∧ collect_pr_context w b h = joinSep "\n\n" (pr_context_parts w b h)
    ∧ (∀ p ∈ repo_context_parts files log diff,
        strStartsWith p "### " = true ∨ strStartsWith p "[Error" = true)
    ∧ (∀ p ∈ pr_context_parts w b h,
        strStartsWith p "### " = true ∨ strStartsWith p "[Error" = true) := by
  refine ⟨rfl, rfl, ?_, ?_⟩
  · intro p hp
    unfold repo_context_parts at hp
    rw [List.mem_append] at hp
    rcases hp with hp | hp
    · exact Or.inl (file_sections_starts files p hp)
    · rw [List.mem_cons, List.mem_singleton] at hp
      rcases hp with hp | hp
      · subst hp; exact log_section_shape log
      · subst hp; exact diff_section_shape diff
  · intro p hp
    unfold pr_context_parts at hp
    cases hc : w.prChanged b h with
    | error e =>
      rw [hc] at hp
      simp only [List.mem_singleton] at hp
      subst hp
      exact Or.inr (strStartsWith_append _ _ _
        (strStartsWith_append "[Error collecting PR context: " e _ rfl))
    | ok out =>
      rw [hc] at hp
      cases hl : w.prLog b h with
      | ok lg =>
        rw [hl] at hp
        simp only [List.mem_append, List.mem_cons, List.mem_singleton,
          List.mem_nil_iff, or_false] at hp
        rcases hp with (hp | hp) | hp
        · subst hp
          exact Or.inl (strStartsWith_append "### Changed Files\n" _ _ rfl)
        · exact sections_for_files_shape w b h _ p hp
        · subst hp
          exact Or.inl (strStartsWith_append "### PR Commits\n" lg _ rfl)
      | error e =>
        rw [hl] at hp
        simp only [List.mem_append, List.mem_cons, List.mem_singleton,
          List.mem_nil_iff, or_false] at hp
        rcases hp with (hp | hp) | hp
        · subst hp
          exact Or.inl (strStartsWith_append "### Changed Files\n" _ _ rfl)
        · exact sections_for_files_shape w b h _ p hp
        · subst hp
          exact Or.inr (strStartsWith_append _ _ _
            (strStartsWith_append "[Error collecting PR context: " e _ rfl))

/-- Witness for C9's amended statement: concrete sections of both
collectors satisfy the header-or-marker dichotomy. -/
theorem c9_blob_assembly_witness :
    ("### Recent Commits\nL" ∈ repo_context_parts [] (.ok "L") (.ok "D"))
    ∧ (strStartsWith "### Recent Commits\nL" "### " = true
        ∨ strStartsWith "### Recent Commits\nL" "[Error" = true)
    ∧ ("[Error reading file: b.txt]" ∈ pr_context_parts w_test "B" "H")
    ∧ (strStartsWith "[Error reading file: b.txt]" "### " = true
        ∨ strStartsWith "[Error reading file: b.txt]" "[Error" = true) :=
  ⟨by decide, (c9_blob_assembly [] (.ok "L") (.ok "D") w_test "B" "H").2.2.1
      "### Recent Commits\nL" (by decide),
   by decide, (c9_blob_assembly [] (.ok "L") (.ok "D") w_test "B" "H").2.2.2
      "[Error reading file: b.txt]" (by decide)⟩

end GenOps
